import Mathlib

/-!
Shallow embedding of the module backends of reactive-tools:
`src/reactivetools/modules/sancus.py` and
`src/reactivetools/modules/trustzone.py`.

Pure fragments of the Python methods become Lean functions; the memoized
future slots become explicit `Option` state threaded through step functions
that also report how many underlying node/manager computations a call
issues; fallible code returns `Except String`.
-/

/-- A Python value that is either an integer or a string, as passed to the
endpoint-resolution methods `get_input_id`, `get_output_id`, `get_entry_id`. -/
inductive PyVal where
  | int (n : Nat)
  | str (s : String)
deriving DecidableEq

/-- Python `str.isnumeric` restricted to ASCII: true iff the string is
nonempty and all characters are decimal digits. -/
def strIsNumeric (s : String) : Bool :=
  s.length > 0 && s.data.all Char.isDigit

/-- Python `int(s)` on a digit string. -/
def digitsToNat (s : String) : Nat :=
  s.data.foldl (fun acc c => acc * 10 + (c.toNat - 48)) 0

/-! ## Endpoint resolution: Sancus ELF symbol lookup

`SancusModule.__get_symbol` iterates the sections of the built ELF binary;
for each symbol-table section it iterates its symbols and returns the
`st_value` of the first symbol whose name matches and whose `st_shndx` is
not `SHN_UNDEF`. -/

/-- An ELF symbol-table entry, with the fields the source consults. -/
structure ElfSymbol where
  sym_name : String
  st_shndx : String
  st_value : Nat
deriving DecidableEq

/-- An ELF section: either a symbol-table section or anything else. -/
inductive ElfSection where
  | symtabSec (syms : List ElfSymbol)
  | otherSec
deriving DecidableEq

/-- Inner loop of `SancusModule.__get_symbol`: first symbol in the list whose
name matches and whose section index is not `SHN_UNDEF`. -/
def findSymbolIn (target : String) : List ElfSymbol → Option Nat
  | [] => none
  | s :: rest =>
      if s.sym_name = target ∧ s.st_shndx ≠ "SHN_UNDEF" then some s.st_value
      else findSymbolIn target rest

/-- Outer loop of `SancusModule.__get_symbol`: scan sections in order,
searching each symbol-table section. -/
def getSymbolSections (target : String) : List ElfSection → Option Nat
  | [] => none
  | ElfSection.symtabSec syms :: rest =>
      (findSymbolIn target syms).orElse (fun _ => getSymbolSections target rest)
  | ElfSection.otherSec :: rest => getSymbolSections target rest

/-- All symbols of all symbol-table sections, in scan order. -/
def sectionSymbols : List ElfSection → List ElfSymbol
  | [] => []
  | ElfSection.symtabSec syms :: rest => syms ++ sectionSymbols rest
  | ElfSection.otherSec :: rest => sectionSymbols rest

/-- `SancusModule.__get_symbol`: fails when the binary path is falsy (empty),
otherwise scans the symbol tables. -/
def SancusModule.get_symbol (mod_name binary : String) (sections : List ElfSection)
    (sym : String) : Except String (Option Nat) :=
  if binary = "" then
    Except.error ("ELF file not present for " ++ mod_name ++
      ", cannot extract symbol ID of " ++ sym)
  else
    Except.ok (getSymbolSections sym sections)

/-- Symbol naming convention for Sancus inputs/outputs. -/
def ioSymName (mod_name io_name : String) : String :=
  "__sm_" ++ mod_name ++ "_io_" ++ io_name ++ "_idx"

/-- Symbol naming convention for Sancus entry points. -/
def entrySymName (mod_name entry_name : String) : String :=
  "__sm_" ++ mod_name ++ "_entry_" ++ entry_name ++ "_idx"

/-- `SancusModule._get_io_id`: resolve an input/output name through the ELF
symbol table; a missing symbol is an error naming the module and endpoint. -/
def SancusModule.resolve_io_id (mod_name binary : String) (sections : List ElfSection)
    (io_name : String) : Except String Nat :=
  match SancusModule.get_symbol mod_name binary sections (ioSymName mod_name io_name) with
  | Except.error e => Except.error e
  | Except.ok none =>
      Except.error ("Module " ++ mod_name ++ " has no endpoint named " ++ io_name)
  | Except.ok (some v) => Except.ok v

/-- `SancusModule._get_entry_id`: resolve an entry-point name through the ELF
symbol table; a missing symbol is an error naming the module and entry. -/
def SancusModule.resolve_entry_id (mod_name binary : String) (sections : List ElfSection)
    (entry_name : String) : Except String Nat :=
  match SancusModule.get_symbol mod_name binary sections (entrySymName mod_name entry_name) with
  | Except.error e => Except.error e
  | Except.ok none =>
      Except.error ("Module " ++ mod_name ++ " has no entry named " ++ entry_name)
  | Except.ok (some v) => Except.ok v

/-! ## Public id-resolution methods

The methods check for numeric arguments before deferring to backend
resolution; the backend resolver is abstracted as a parameter so that
independence from it states "no resolution is invoked". -/

/-- `SancusModule.get_io_id`: an `int` argument is the ID (given by the
deployer); a string is resolved via `_get_io_id`. -/
def SancusModule.get_io_id (resolve : String → Except String Nat) (io : PyVal) :
    Except String Nat :=
  match io with
  | PyVal.int n => Except.ok n
  | PyVal.str s => resolve s

/-- `SancusModule.get_input_id` delegates to `get_io_id`. -/
def SancusModule.get_input_id (resolve : String → Except String Nat) (inp : PyVal) :
    Except String Nat :=
  SancusModule.get_io_id resolve inp

/-- `SancusModule.get_output_id` delegates to `get_io_id`. -/
def SancusModule.get_output_id (resolve : String → Except String Nat) (outp : PyVal) :
    Except String Nat :=
  SancusModule.get_io_id resolve outp

/-- `SancusModule.get_entry_id`: calls `entry.isnumeric()`, which raises
`AttributeError` on an `int` argument; a digit string is converted with
`int(entry)`; other strings are resolved via `_get_entry_id`. -/
def SancusModule.get_entry_id (resolve : String → Except String Nat) (entry : PyVal) :
    Except String Nat :=
  match entry with
  | PyVal.int _ => Except.error "AttributeError"
  | PyVal.str s =>
      if strIsNumeric s then Except.ok (digitsToNat s)
      else resolve s

/-- `TrustZoneModule.get_input_id`: an `int` argument passes through; a string
is looked up in the static `inputs` map, failing if absent. -/
def TrustZoneModule.get_input_id (inputs : List (String × Nat)) (inp : PyVal) :
    Except String Nat :=
  match inp with
  | PyVal.int n => Except.ok n
  | PyVal.str s =>
      match inputs.lookup s with
      | none => Except.error "Input not present in inputs"
      | some v => Except.ok v

/-- `TrustZoneModule.get_output_id`: an `int` argument passes through; a string
is looked up in the static `outputs` map, failing if absent. -/
def TrustZoneModule.get_output_id (outputs : List (String × Nat)) (outp : PyVal) :
    Except String Nat :=
  match outp with
  | PyVal.int n => Except.ok n
  | PyVal.str s =>
      match outputs.lookup s with
      | none => Except.error "Output not present in outputs"
      | some v => Except.ok v

/-- `TrustZoneModule.get_entry_id`: calls `entry.isnumeric()`, which raises
`AttributeError` on an `int` argument; a digit string is converted with
`int(entry)`; other strings are looked up in the static `entrypoints` map. -/
def TrustZoneModule.get_entry_id (entrypoints : List (String × Nat)) (entry : PyVal) :
    Except String Nat :=
  match entry with
  | PyVal.int _ => Except.error "AttributeError"
  | PyVal.str s =>
      if strIsNumeric s then Except.ok (digitsToNat s)
      else
        match entrypoints.lookup s with
        | none => Except.error "Entry not present in entrypoints"
        | some v => Except.ok v

/-! ## Sancus linker configuration-file merge

`SancusModule.__prepare_config_file` loads the YAML configuration file, whose
documented shape maps each module name to a list of single-field records, and
then runs

  if "num_connections" not in config or config["num_connections"] < self.connections:
      config[self.name].append(\x7b"num_connections": self.connections\x7d)

Note the membership test and the indexing look at the TOP LEVEL of the
mapping, whose keys are module names, not at the records inside
`config[self.name]`. -/

/-- One record inside a module's list in the configuration file: a field name
paired with an integer value. -/
abbrev SmEntry := String × Nat

/-- The loaded configuration file: a mapping from top-level keys (module
names) to lists of records. -/
abbrev SmConfig := List (String × List SmEntry)

/-- Python `config[name].append(entry)`: `none` models the `KeyError` raised
when `name` is not a top-level key. -/
def configAppend (name : String) (entry : SmEntry) : SmConfig → Option SmConfig
  | [] => none
  | (k, v) :: rest =>
      if k = name then some ((k, v ++ [entry]) :: rest)
      else (configAppend name entry rest).map (fun r => (k, v) :: r)

/-- The merge step of `SancusModule.__prepare_config_file` on an
already-loaded configuration: if `"num_connections"` is a top-level key, the
comparison `config["num_connections"] < self.connections` compares a list
with an integer and raises `TypeError`; otherwise the condition is true and a
fresh record is appended to this module's list. -/
def SancusModule.prepare_config_merge (name : String) (connections : Nat)
    (config : SmConfig) : Except String SmConfig :=
  match config.lookup "num_connections" with
  | some _ => Except.error "TypeError: not supported between instances of list and int"
  | none =>
      match configAppend name ("num_connections", connections) config with
      | none => Except.error "KeyError"
      | some c => Except.ok c

/-! ## Memoized future slots: deploy and attest

`tools.init_future` seeds a slot as already-resolved when a value is known;
`build`, `deploy`, `key` and (without an attestation manager) `attest` follow
the pattern

  if self.fut is None: self.fut = asyncio.ensure_future(compute())
  return await self.fut

Because the slot is assigned before any suspension point, a second caller
(concurrent or later) always finds the slot non-empty and joins it: a call is
modelled as a step on the slot state that also reports how many underlying
computations it issues. -/

/-- Result of one call to `SancusModule.deploy`: the `(id, symtab)` pair
returned, the slot state after the call, and the number of `node.deploy`
computations this call issued. -/
structure DeployCall where
  result : Nat × String
  slot : Option (Nat × String)
  issued : Nat
deriving DecidableEq

/-- One call to `SancusModule.deploy`: an empty slot starts `node.deploy`
(whose result is `node_result`) and caches it; a filled slot is returned
as-is with no new computation. -/
def SancusModule.deploy (node_result : Nat × String) (fut : Option (Nat × String)) :
    DeployCall :=
  match fut with
  | some r => { result := r, slot := some r, issued := 0 }
  | none => { result := node_result, slot := some node_result, issued := 1 }

/-- One call to `TrustZoneModule.deploy`: the body is exactly
`await self.node.deploy(self)` — there is no deploy slot, no caching and no
return value, so every call issues one `node.deploy` computation. -/
def TrustZoneModule.deploy_step : Unit × Nat := ((), 1)

/-- Number of `node.deploy` computations issued by two successive calls to
`TrustZoneModule.deploy`. -/
def TrustZoneModule.deploy_twice_calls : Nat :=
  TrustZoneModule.deploy_step.2 + TrustZoneModule.deploy_step.2

/-- One call to `SancusModule.attest`: with an attestation manager configured
(`glob.get_att_man()` truthy) the call runs `__attest_manager()`
unconditionally, never consulting the attest slot; otherwise `node.attest` is
memoized in the slot. Returns the slot state after the call and the number of
underlying attestation computations (manager exchanges or `node.attest`
calls) this call issued. -/
def SancusModule.attest_step (att_man : Bool) (fut : Option Unit) :
    Option Unit × Nat :=
  if att_man then (fut, 1)
  else
    match fut with
    | some r => (some r, 0)
    | none => (some (), 1)

/-- Number of underlying attestation computations issued by two successive
calls to `SancusModule.attest` in remote (attestation-manager) mode, starting
from an empty attest slot. -/
def SancusModule.remote_attest_twice_calls : Nat :=
  (SancusModule.attest_step true none).2 +
    (SancusModule.attest_step true (SancusModule.attest_step true none).1).2

/-- One call to `TrustZoneModule.attest`: `node.attest` is memoized in the
attest slot. -/
def TrustZoneModule.attest_step (fut : Option Unit) : Option Unit × Nat :=
  match fut with
  | some r => (some r, 0)
  | none => (some (), 1)

/-! ## Key hex encoding

The collaborating dump/load layer (`dumpers.py` / `loaders.py`, outside the
given sources) represents raw key bytes as lowercase hex text. -/

/-- Lowercase hex digit for a value below 16. -/
def hexDigitChar (n : Nat) : Char :=
  if n < 10 then Char.ofNat (48 + n) else Char.ofNat (87 + n)

/-- Two hex characters of one byte. -/
def hexlifyByte (b : Nat) : List Char :=
  [hexDigitChar (b / 16), hexDigitChar (b % 16)]

/-- Modelled from the spec: the dump layer (`dumpers.py`, not in src)
serializes raw key bytes in the hex encoding established by the collaborating
dump/load layer. -/
def dumpKey (k : List Nat) : List Char :=
  k.foldr (fun b acc => hexlifyByte b ++ acc) []

/-- Value of one hex character, if it is one. -/
def hexCharVal (c : Char) : Option Nat :=
  if 48 ≤ c.toNat ∧ c.toNat ≤ 57 then some (c.toNat - 48)
  else if 97 ≤ c.toNat ∧ c.toNat ≤ 102 then some (c.toNat - 87)
  else none

/-- Modelled from the spec: `loaders.parse_key` (not in src) decodes the hex
text back to raw bytes, two characters per byte. -/
def unhexlify : List Char → Option (List Nat)
  | [] => some []
  | c1 :: c2 :: rest =>
      match hexCharVal c1, hexCharVal c2, unhexlify rest with
      | some h, some l, some bs => some ((h * 16 + l) :: bs)
      | _, _, _ => none
  | [_] => none

/-- Modelled from the spec: `parse_key` of an absent field is an unresolved
slot seed. -/
def parse_key : Option (List Char) → Option (List Nat)
  | none => none
  | some s => unhexlify s

/-- Modelled from the spec: `tools.init_future` (not in src) seeds a slot as
already-resolved when a value is known and leaves it unresolved otherwise. -/
def init_future (x : Option α) : Option α := x

/-- Modelled from the spec: the two-argument `tools.init_future(id, symtab)`
seeds the deploy slot with the pair when the values are known. -/
def init_future2 (id : Option Nat) (symtab : Option String) : Option (Nat × String) :=
  match id, symtab with
  | some i, some s => some (i, s)
  | _, _ => none

/-- Python truthiness of an optional boolean (`None` and `False` are falsy). -/
def obTruthy (x : Option Bool) : Bool := x.getD false

/-! ## Module state and persisted dictionaries -/

/-- In-memory state of a `SancusModule`: configuration fields plus the three
memoized slots (`__build_fut`, `__deploy_fut`, `__key_fut`). -/
structure SancusState where
  name : String
  node_name : String
  priority : Option Nat
  deployed : Option Bool
  nonce : Option Nat
  attested : Option Bool
  files : List String
  cflags : List String
  ldflags : List String
  build_fut : Option String
  deploy_fut : Option (Nat × String)
  key_fut : Option (List Nat)
deriving DecidableEq

/-- The persisted dictionary form of a Sancus module (`typ` is the `type`
discriminator field). -/
structure SancusDict where
  typ : String
  name : String
  node : String
  priority : Option Nat
  deployed : Option Bool
  nonce : Option Nat
  attested : Option Bool
  files : List String
  cflags : List String
  ldflags : List String
  binary : Option String
  id : Option Nat
  symtab : Option String
  key : Option (List Char)
deriving DecidableEq

/-- `SancusModule.dump`: identity/config fields always; `binary`, `id`,
`symtab`, `key` only when `self.deployed` is truthy, else `None`. The
build/deploy/key values serialized are the resolved slot contents. -/
def SancusModule.dump (m : SancusState) : SancusDict :=
  { typ := "sancus"
    name := m.name
    node := m.node_name
    priority := m.priority
    deployed := m.deployed
    nonce := m.nonce
    attested := m.attested
    files := m.files
    cflags := m.cflags
    ldflags := m.ldflags
    binary := if obTruthy m.deployed then m.build_fut else none
    id := if obTruthy m.deployed then m.deploy_fut.map Prod.fst else none
    symtab := if obTruthy m.deployed then m.deploy_fut.map Prod.snd else none
    key := if obTruthy m.deployed then m.key_fut.map dumpKey else none }

/-- `SancusModule.load` followed by `SancusModule.__init__`: reads the
dictionary fields and seeds the three slots through `tools.init_future`. -/
def SancusModule.load (d : SancusDict) (node_name : String) : SancusState :=
  { name := d.name
    node_name := node_name
    priority := d.priority
    deployed := d.deployed
    nonce := d.nonce
    attested := d.attested
    files := d.files
    cflags := d.cflags
    ldflags := d.ldflags
    build_fut := init_future d.binary
    deploy_fut := init_future2 d.id d.symtab
    key_fut := init_future (parse_key d.key) }

/-- In-memory state of a `TrustZoneModule`: configuration fields plus the two
memoized slots (`__build_fut`, `__key_fut`); `id`, `uuid` and the three
name-to-ID maps are plain attributes. -/
structure TrustZoneState where
  name : String
  node_name : String
  priority : Option Nat
  deployed : Option Bool
  nonce : Option Nat
  attested : Option Bool
  files_dir : Option String
  id : Option Nat
  uuid : Option Nat
  inputs : List (String × Nat)
  outputs : List (String × Nat)
  entrypoints : List (String × Nat)
  build_fut : Option String
  key_fut : Option (List Nat)
deriving DecidableEq

/-- The persisted dictionary form of a TrustZone module. -/
structure TrustZoneDict where
  typ : String
  name : String
  node : String
  priority : Option Nat
  deployed : Option Bool
  nonce : Option Nat
  attested : Option Bool
  files_dir : Option String
  binary : Option String
  id : Option Nat
  uuid : Option Nat
  key : Option (List Char)
  inputs : List (String × Nat)
  outputs : List (String × Nat)
  entrypoints : List (String × Nat)
deriving DecidableEq

/-- `TrustZoneModule.dump`: identity/config fields (including `id`, `uuid`
and the maps) always; `binary` and `key` only when `self.deployed` is truthy,
else `None`. -/
def TrustZoneModule.dump (m : TrustZoneState) : TrustZoneDict :=
  { typ := "trustzone"
    name := m.name
    node := m.node_name
    priority := m.priority
    deployed := m.deployed
    nonce := m.nonce
    attested := m.attested
    files_dir := m.files_dir
    binary := if obTruthy m.deployed then m.build_fut else none
    id := m.id
    uuid := m.uuid
    key := if obTruthy m.deployed then m.key_fut.map dumpKey else none
    inputs := m.inputs
    outputs := m.outputs
    entrypoints := m.entrypoints }

/-- `TrustZoneModule.load` followed by `TrustZoneModule.__init__`: reads the
dictionary fields and seeds the two slots through `tools.init_future`. -/
def TrustZoneModule.load (d : TrustZoneDict) (node_name : String) : TrustZoneState :=
  { name := d.name
    node_name := node_name
    priority := d.priority
    deployed := d.deployed
    nonce := d.nonce
    attested := d.attested
    files_dir := d.files_dir
    id := d.id
    uuid := d.uuid
    inputs := d.inputs
    outputs := d.outputs
    entrypoints := d.entrypoints
    build_fut := init_future d.binary
    key_fut := init_future (parse_key d.key) }

/-! ## TrustZone key derivation

`TrustZoneModule.__calculate_key` reads the first 52 bytes of the built
binary (`f.read(52)`), drops the 20-byte `struct shdr` header to obtain the
32-byte hash, and returns `sha256(node_key + module_hash).digest()[:key_size]`
after checking that the requested key size does not exceed the digest length.
The hash function (`hashlib`) and the requested key size
(`Encryption.AES.get_key_size()`, from the crypto module outside the given
sources) are parameters of the embedding. -/

/-- The hash field extracted from the binary prefix: `f.read(52)[20:]`. -/
def trustzone_module_hash (binary : List Nat) : List Nat :=
  (binary.take 52).drop 20

/-- `TrustZoneModule.__calculate_key`, parametrized by the digest function
and the scheme key size. -/
def TrustZoneModule.calculate_key (sha256 : List Nat → List Nat)
    (node_key binary : List Nat) (key_size : Nat) : Except String (List Nat) :=
  let module_hash := trustzone_module_hash binary
  if key_size > 32 then
    Except.error ("SHA256 cannot compute digests with length " ++ toString key_size)
  else
    Except.ok ((sha256 (node_key ++ module_hash)).take key_size)

/-! ## Sancus remote attestation -/

/-- The comparison and state update at the end of
`SancusModule.__attest_manager`: the received byte array (already decoded
from the manager response) is compared byte-for-byte with the locally derived
key `await self.key`; a mismatch raises an error naming the module before
`self.attested = True` is ever reached, so the state is returned unchanged
together with the error message; on a match the flag is set. -/
def SancusModule.attest_manager_step (m : SancusState) (local_key received : List Nat) :
    SancusState × Option String :=
  if local_key ≠ received then
    (m, some ("Received key is different from " ++ m.name ++ " key"))
  else
    ({ m with attested := some true }, none)

/-! ## The attestation-manager response text

`SancusModule.__attest_manager` runs `key_arr = eval(out)` on the textual
response: any Python expression evaluating to a list is accepted, not only a
literal array. A small fragment of such expressions suffices to separate the
source's behaviour from the strict parsing the specification mandates. -/

/-- A fragment of Python expressions over integer lists as found in the
response text: literal arrays, list concatenation (`+`) and list repetition
(`*`). -/
inductive RespExpr where
  | lit (xs : List Nat)
  | addE (a b : RespExpr)
  | mulE (a : RespExpr) (n : Nat)
deriving DecidableEq

/-- What `eval(out)` computes on such a response: every expression of the
fragment is evaluated. -/
def respEval : RespExpr → List Nat
  | RespExpr.lit xs => xs
  | RespExpr.addE a b => respEval a ++ respEval b
  | RespExpr.mulE a n => (List.replicate n (respEval a)).foldr (· ++ ·) []

/-- Modelled from the spec: the mandated strict parser accepts only a literal,
bounded-length array of small integers (byte values below 256), and rejects
every other expression form. -/
def strictParseResponse (maxLen : Nat) : RespExpr → Option (List Nat)
  | RespExpr.lit xs =>
      if xs.length ≤ maxLen && xs.all (· < 256) then some xs else none
  | RespExpr.addE _ _ => none
  | RespExpr.mulE _ _ => none

/-! ## Example module states, used to evaluate the lifecycle operations -/

/-- A deployed Sancus module with all slots resolved. -/
def sancusExample : SancusState :=
  { name := "foo"
    node_name := "n"
    priority := some 1
    deployed := some true
    nonce := some 0
    attested := some false
    files := ["a.c"]
    cflags := []
    ldflags := []
    build_fut := some "a.elf"
    deploy_fut := some (7, "sym.ld")
    key_fut := some [1, 255] }

/-- A Sancus module that was never deployed. -/
def sancusUndeployed : SancusState :=
  { sancusExample with deployed := some false }

/-- A deployed TrustZone module with both slots resolved. -/
def trustzoneExample : TrustZoneState :=
  { name := "ta"
    node_name := "n"
    priority := some 1
    deployed := some true
    nonce := some 0
    attested := some false
    files_dir := some "src"
    id := some 3
    uuid := some 77
    inputs := [("in1", 10)]
    outputs := [("out1", 11)]
    entrypoints := [("go", 12)]
    build_fut := some "77.ta"
    key_fut := some [0, 16, 255] }

/-- A TrustZone module that was never deployed. -/
def trustzoneUndeployed : TrustZoneState :=
  { trustzoneExample with deployed := none }

/-! ## Helper lemmas -/

/-- Decoding inverts the hex digit encoding on values below 16. -/
theorem hexCharVal_hexDigitChar (n : Nat) (h : n < 16) :
    hexCharVal (hexDigitChar n) = some n := by
  interval_cases n <;> decide

/-- Decoding inverts the hex encoding on lists of bytes. -/
theorem unhexlify_dumpKey : ∀ (k : List Nat), (∀ b ∈ k, b < 256) →
    unhexlify (dumpKey k) = some k
  | [], _ => rfl
  | b :: bs, h => by
      have hb : b < 256 := h b (List.mem_cons_self b bs)
      have ih := unhexlify_dumpKey bs (fun x hx => h x (List.mem_cons_of_mem b hx))
      have hd : b / 16 < 16 := Nat.div_lt_of_lt_mul (by omega)
      have hm : b % 16 < 16 := Nat.mod_lt b (by omega)
      show unhexlify (hexDigitChar (b / 16) :: hexDigitChar (b % 16) :: dumpKey bs) =
        some (b :: bs)
      rw [unhexlify, hexCharVal_hexDigitChar _ hd, hexCharVal_hexDigitChar _ hm, ih]
      have hdm : b / 16 * 16 + b % 16 = b := by omega
      simp only []
      rw [hdm]

/-- A symbol list with no defined symbol of the target name yields nothing. -/
theorem findSymbolIn_eq_none : ∀ (target : String) (syms : List ElfSymbol),
    (∀ s ∈ syms, s.sym_name ≠ target ∨ s.st_shndx = "SHN_UNDEF") →
    findSymbolIn target syms = none
  | _, [], _ => rfl
  | target, s :: rest, h => by
      have hs := h s (List.mem_cons_self s rest)
      have hrest := findSymbolIn_eq_none target rest
        (fun x hx => h x (List.mem_cons_of_mem s hx))
      rw [findSymbolIn, if_neg, hrest]
      rintro ⟨h1, h2⟩
      rcases hs with h3 | h3
      · exact h3 h1
      · exact h2 h3

/-- A section list with no defined symbol of the target name yields nothing. -/
theorem getSymbolSections_eq_none : ∀ (target : String) (secs : List ElfSection),
    (∀ s ∈ sectionSymbols secs, s.sym_name ≠ target ∨ s.st_shndx = "SHN_UNDEF") →
    getSymbolSections target secs = none
  | _, [], _ => rfl
  | target, ElfSection.symtabSec syms :: rest, h => by
      have hsyms : findSymbolIn target syms = none :=
        findSymbolIn_eq_none target syms
          (fun x hx => h x (by simp [sectionSymbols, hx]))
      have hrest : getSymbolSections target rest = none :=
        getSymbolSections_eq_none target rest
          (fun x hx => h x (by simp [sectionSymbols, hx]))
      rw [getSymbolSections, hsyms, hrest]
      rfl
  | target, ElfSection.otherSec :: rest, h => by
      have hrest : getSymbolSections target rest = none :=
        getSymbolSections_eq_none target rest (fun x hx => h x (by simp [sectionSymbols, hx]))
      rw [getSymbolSections, hrest]

/-! ## Claims -/

/-- C1 (counterexample): two successive calls to `TrustZoneModule.deploy`
issue two `node.deploy` computations, not exactly one as the claim states for
every module. -/
theorem c1_trustzone_deploy_not_memoized :
    TrustZoneModule.deploy_twice_calls = 2 ∧ TrustZoneModule.deploy_twice_calls ≠ 1 := by
  decide

/-- C1 (amended): `SancusModule.deploy` is memoized — from an empty slot the
first call issues `node.deploy` exactly once and returns the `(id, symtab)`
pair, and a second call issues no new computation and observes the identical
result; `TrustZoneModule.deploy` issues one `node.deploy` computation on
every call (two calls issue two) and returns no value. -/
theorem c1_deploy_memoization :
    (∀ nr : Nat × String,
      (SancusModule.deploy nr none).issued = 1 ∧
      (SancusModule.deploy nr none).result = nr ∧
      (SancusModule.deploy nr (SancusModule.deploy nr none).slot).issued = 0 ∧
      (SancusModule.deploy nr (SancusModule.deploy nr none).slot).result =
        (SancusModule.deploy nr none).result) ∧
    TrustZoneModule.deploy_twice_calls = 2 :=
  ⟨fun _ => ⟨rfl, rfl, rfl, rfl⟩, rfl⟩

/-- C2 (code bug): on the documented configuration-file shape the key
`num_connections` never occurs at the top level, so the merge condition is
always true and merging the same value twice appends a second identical
record instead of leaving the stored value unchanged. -/
theorem c2_config_merge_appends_duplicate :
    SancusModule.prepare_config_merge "m" 5 [("m", [("num_connections", 5)])] =
      Except.ok [("m", [("num_connections", 5), ("num_connections", 5)])] ∧
    SancusModule.prepare_config_merge "m" 5 [("m", [("num_connections", 5)])] ≠
      Except.ok [("m", [("num_connections", 5)])] := by
  refine ⟨rfl, fun h => ?_⟩
  have h2 := Except.ok.inj h
  simp at h2

/-- C3 (counterexample): in remote (attestation-manager) mode two successive
calls to `SancusModule.attest` run the manager exchange twice, not at most
once as claimed. -/
theorem c3_remote_attest_not_memoized :
    SancusModule.remote_attest_twice_calls = 2 ∧
    SancusModule.remote_attest_twice_calls ≠ 1 := by
  decide

/-- C3 (amended): `attest` is memoized for Sancus local mode and for
TrustZone (an empty slot issues one underlying `node.attest`, a filled slot
issues none); in Sancus remote mode every call runs the attestation-manager
exchange; the exchange fails with an error naming the module when the remote
proof does not match the local key. -/
theorem c3_attest_memoization :
    (SancusModule.attest_step false none = (some (), 1) ∧
     SancusModule.attest_step false (some ()) = (some (), 0)) ∧
    (TrustZoneModule.attest_step none = (some (), 1) ∧
     TrustZoneModule.attest_step (some ()) = (some (), 0)) ∧
    (∀ fut, (SancusModule.attest_step true fut).2 = 1) ∧
    (∀ (m : SancusState) (lk rk : List Nat), lk ≠ rk →
      (SancusModule.attest_manager_step m lk rk).2 =
        some ("Received key is different from " ++ m.name ++ " key")) := by
  refine ⟨⟨rfl, rfl⟩, ⟨rfl, rfl⟩, fun fut => rfl, fun m lk rk hne => ?_⟩
  simp [SancusModule.attest_manager_step, hne]

/-- C3 (witness): the amended theorem applied to a concrete module and a pair
of distinct keys. -/
theorem c3_attest_memoization_witness :
    ([1, 255] ≠ ([1, 2] : List Nat)) ∧
    (SancusModule.attest_manager_step sancusExample [1, 255] [1, 2]).2 =
      some ("Received key is different from " ++ sancusExample.name ++ " key") :=
  ⟨by decide, c3_attest_memoization.2.2.2 sancusExample [1, 255] [1, 2] (by decide)⟩

/-- C4 (code bug): the manager response is passed to `eval`, which accepts
any expression of the fragment — the non-literal expression `[1] + [2]`
evaluates to a key, and `[0] * 100` to an arbitrarily long one — while the
mandated strict parser accepts neither. -/
theorem c4_response_eval_not_strict :
    respEval (RespExpr.addE (RespExpr.lit [1]) (RespExpr.lit [2])) = [1, 2] ∧
    (∀ maxLen, strictParseResponse maxLen
        (RespExpr.addE (RespExpr.lit [1]) (RespExpr.lit [2])) = none) ∧
    (respEval (RespExpr.mulE (RespExpr.lit [0]) 100)).length = 100 ∧
    strictParseResponse 64 (RespExpr.mulE (RespExpr.lit [0]) 100) = none := by
  exact ⟨rfl, fun _ => rfl, by decide, rfl⟩

/-- C5: an undeployed module dumps `None` for the build/deploy/key-derived
fields while keeping the identity/config fields, and loading such a dump
leaves the corresponding slots unresolved; a deployed module with resolved
slots round-trips binary path, id and key byte-for-byte, for both backends. -/
theorem c5_dump_load_roundtrip :
    (∀ m : SancusState, obTruthy m.deployed = false →
      ((SancusModule.dump m).binary = none ∧ (SancusModule.dump m).id = none ∧
       (SancusModule.dump m).symtab = none ∧ (SancusModule.dump m).key = none ∧
       (SancusModule.dump m).name = m.name ∧ (SancusModule.dump m).files = m.files ∧
       (SancusModule.dump m).ldflags = m.ldflags) ∧
      ((SancusModule.load (SancusModule.dump m) m.node_name).build_fut = none ∧
       (SancusModule.load (SancusModule.dump m) m.node_name).deploy_fut = none ∧
       (SancusModule.load (SancusModule.dump m) m.node_name).key_fut = none)) ∧
    (∀ (m : SancusState) (b : String) (i : Nat) (st : String) (k : List Nat),
      obTruthy m.deployed = true → m.build_fut = some b →
      m.deploy_fut = some (i, st) → m.key_fut = some k → (∀ x ∈ k, x < 256) →
      (SancusModule.load (SancusModule.dump m) m.node_name).build_fut = some b ∧
      (SancusModule.load (SancusModule.dump m) m.node_name).deploy_fut = some (i, st) ∧
      (SancusModule.load (SancusModule.dump m) m.node_name).key_fut = some k) ∧
    (∀ m : TrustZoneState, obTruthy m.deployed = false →
      ((TrustZoneModule.dump m).binary = none ∧ (TrustZoneModule.dump m).key = none ∧
       (TrustZoneModule.dump m).id = m.id ∧ (TrustZoneModule.dump m).uuid = m.uuid ∧
       (TrustZoneModule.dump m).name = m.name ∧
       (TrustZoneModule.dump m).inputs = m.inputs ∧
       (TrustZoneModule.dump m).outputs = m.outputs ∧
       (TrustZoneModule.dump m).entrypoints = m.entrypoints) ∧
      ((TrustZoneModule.load (TrustZoneModule.dump m) m.node_name).build_fut = none ∧
       (TrustZoneModule.load (TrustZoneModule.dump m) m.node_name).key_fut = none)) ∧
    (∀ (m : TrustZoneState) (b : String) (k : List Nat),
      obTruthy m.deployed = true → m.build_fut = some b → m.key_fut = some k →
      (∀ x ∈ k, x < 256) →
      (TrustZoneModule.load (TrustZoneModule.dump m) m.node_name).build_fut = some b ∧
      (TrustZoneModule.load (TrustZoneModule.dump m) m.node_name).id = m.id ∧
      (TrustZoneModule.load (TrustZoneModule.dump m) m.node_name).key_fut = some k) := by
  refine ⟨fun m hdep => ?_, fun m b i st k hdep hb hd hk hbytes => ?_,
          fun m hdep => ?_, fun m b k hdep hb hk hbytes => ?_⟩
  · simp [SancusModule.dump, SancusModule.load, init_future, init_future2, parse_key, hdep]
  · simp [SancusModule.dump, SancusModule.load, init_future, init_future2, parse_key,
      hdep, hb, hd, hk, unhexlify_dumpKey k hbytes]
  · simp [TrustZoneModule.dump, TrustZoneModule.load, init_future, parse_key, hdep]
  · simp [TrustZoneModule.dump, TrustZoneModule.load, init_future, parse_key,
      hdep, hb, hk, unhexlify_dumpKey k hbytes]

/-- C5 (witness): the round-trip theorem evaluated at the concrete example
modules, both undeployed and deployed. -/
theorem c5_dump_load_roundtrip_witness :
    (obTruthy sancusUndeployed.deployed = false ∧
      (SancusModule.load (SancusModule.dump sancusUndeployed)
        sancusUndeployed.node_name).deploy_fut = none) ∧
    (obTruthy sancusExample.deployed = true ∧
      (SancusModule.load (SancusModule.dump sancusExample)
        sancusExample.node_name).key_fut = some [1, 255]) ∧
    (obTruthy trustzoneUndeployed.deployed = false ∧
      (TrustZoneModule.load (TrustZoneModule.dump trustzoneUndeployed)
        trustzoneUndeployed.node_name).key_fut = none) ∧
    (obTruthy trustzoneExample.deployed = true ∧
      (TrustZoneModule.load (TrustZoneModule.dump trustzoneExample)
        trustzoneExample.node_name).key_fut = some [0, 16, 255]) :=
  ⟨⟨by decide, (c5_dump_load_roundtrip.1 sancusUndeployed (by decide)).2.2.1⟩,
   ⟨by decide, (c5_dump_load_roundtrip.2.1 sancusExample "a.elf" 7 "sym.ld" [1, 255]
      (by decide) rfl rfl rfl (by decide)).2.2⟩,
   ⟨by decide, (c5_dump_load_roundtrip.2.2.1 trustzoneUndeployed (by decide)).2.2⟩,
   ⟨by decide, (c5_dump_load_roundtrip.2.2.2 trustzoneExample "77.ta" [0, 16, 255]
      (by decide) rfl rfl (by decide)).2.2⟩⟩

/-- C6: endpoint resolution returns the value of a defined symbol named by
the io/entry convention, ignoring an undefined symbol of the same name that
precedes it; when no defined symbol of that name exists in any symbol table,
it fails with an error naming the module and the missing endpoint or entry. -/
theorem c6_symbol_resolution :
    (∀ (m n b : String) (u d : ElfSymbol), b ≠ "" →
      u.sym_name = ioSymName m n → u.st_shndx = "SHN_UNDEF" →
      d.sym_name = ioSymName m n → d.st_shndx ≠ "SHN_UNDEF" →
      SancusModule.resolve_io_id m b [ElfSection.symtabSec [u, d]] n =
        Except.ok d.st_value) ∧
    (∀ (m n b : String) (secs : List ElfSection), b ≠ "" →
      (∀ s ∈ sectionSymbols secs,
        s.sym_name ≠ ioSymName m n ∨ s.st_shndx = "SHN_UNDEF") →
      SancusModule.resolve_io_id m b secs n =
        Except.error ("Module " ++ m ++ " has no endpoint named " ++ n)) ∧
    (∀ (m n b : String) (secs : List ElfSection), b ≠ "" →
      (∀ s ∈ sectionSymbols secs,
        s.sym_name ≠ entrySymName m n ∨ s.st_shndx = "SHN_UNDEF") →
      SancusModule.resolve_entry_id m b secs n =
        Except.error ("Module " ++ m ++ " has no entry named " ++ n)) := by
  refine ⟨fun m n b u d hb hu1 hu2 hd1 hd2 => ?_,
          fun m n b secs hb habs => ?_, fun m n b secs hb habs => ?_⟩
  · rw [SancusModule.resolve_io_id, SancusModule.get_symbol, if_neg hb]
    rw [getSymbolSections, findSymbolIn, if_neg (by simp [hu2]), findSymbolIn,
      if_pos ⟨hd1, hd2⟩]
    rfl
  · rw [SancusModule.resolve_io_id, SancusModule.get_symbol, if_neg hb,
      getSymbolSections_eq_none _ _ habs]
  · rw [SancusModule.resolve_entry_id, SancusModule.get_symbol, if_neg hb,
      getSymbolSections_eq_none _ _ habs]

/-- C6 (witness): resolution on a binary containing an undefined and a
defined `__sm_foo_io_bar_idx` returns the defined symbol's value 0x1234, and
on a binary without the symbol it fails naming module and endpoint/entry. -/
theorem c6_symbol_resolution_witness :
    SancusModule.resolve_io_id "foo" "a.elf"
      [ElfSection.symtabSec
        [{ sym_name := "__sm_foo_io_bar_idx", st_shndx := "SHN_UNDEF", st_value := 0 },
         { sym_name := "__sm_foo_io_bar_idx", st_shndx := ".text", st_value := 4660 }]]
      "bar" = Except.ok 4660 ∧
    SancusModule.resolve_io_id "foo" "a.elf"
      [ElfSection.symtabSec
        [{ sym_name := "other", st_shndx := ".text", st_value := 1 }]]
      "bar" = Except.error "Module foo has no endpoint named bar" ∧
    SancusModule.resolve_entry_id "foo" "a.elf" [ElfSection.otherSec]
      "run" = Except.error "Module foo has no entry named run" :=
  ⟨c6_symbol_resolution.1 "foo" "bar" "a.elf" _ _ (by decide) rfl rfl rfl (by decide),
   c6_symbol_resolution.2.1 "foo" "bar" "a.elf" _ (by decide) (by decide),
   c6_symbol_resolution.2.2 "foo" "run" "a.elf" _ (by decide) (by decide)⟩

/-- C7: TrustZone key derivation extracts the 32-byte hash at offsets 20..52
of the built binary and, for a key size within the digest length, returns the
digest of the node key followed by that hash, truncated to the key size — a
pure function of the inputs, hence deterministic; a key size above 32 is an
error. -/
theorem c7_trustzone_key_derivation :
    (∀ (sha256 : List Nat → List Nat) (K bin : List Nat) (ks : Nat), ks ≤ 32 →
      TrustZoneModule.calculate_key sha256 K bin ks =
        Except.ok ((sha256 (K ++ trustzone_module_hash bin)).take ks)) ∧
    (∀ bin : List Nat, 52 ≤ bin.length →
      (trustzone_module_hash bin).length = 32 ∧
      trustzone_module_hash bin = (bin.drop 20).take 32) ∧
    (∀ (sha256 : List Nat → List Nat) (K bin : List Nat) (ks : Nat), 32 < ks →
      TrustZoneModule.calculate_key sha256 K bin ks =
        Except.error ("SHA256 cannot compute digests with length " ++ toString ks)) := by
  refine ⟨fun sha256 K bin ks hks => ?_, fun bin hlen => ⟨?_, ?_⟩,
          fun sha256 K bin ks hks => ?_⟩
  · rw [TrustZoneModule.calculate_key]
    simp [Nat.not_lt_of_le hks]
  · simp [trustzone_module_hash, List.length_drop, List.length_take]
    omega
  · rw [trustzone_module_hash, List.drop_take]
  · rw [TrustZoneModule.calculate_key]
    simp [hks]

/-- C7 (witness): key derivation evaluated at a concrete digest function,
node key and 60-byte binary, with key size 16 and with key size 33. -/
theorem c7_trustzone_key_derivation_witness :
    (16 ≤ 32 ∧
      TrustZoneModule.calculate_key (fun l => List.replicate 32 l.length)
        [9] (List.range 60) 16 =
        Except.ok ((List.replicate 32 (33 : Nat)).take 16)) ∧
    (32 < 33 ∧
      TrustZoneModule.calculate_key (fun l => List.replicate 32 l.length)
        [9] (List.range 60) 33 =
        Except.error ("SHA256 cannot compute digests with length " ++ toString 33)) :=
  ⟨⟨by decide,
    by rw [c7_trustzone_key_derivation.1 (fun l => List.replicate 32 l.length)
        [9] (List.range 60) 16 (by decide)]; rfl⟩,
   ⟨by decide,
    c7_trustzone_key_derivation.2.2 (fun l => List.replicate 32 l.length)
      [9] (List.range 60) 33 (by decide)⟩⟩

/-- C8: if the decoded manager response differs from the locally derived key
in at least one byte, the attestation step reports an error naming the module
and leaves the state (in particular `attested`) unchanged; on byte-for-byte
equality it sets `attested` to true and reports no error. -/
theorem c8_attestation_mismatch :
    ∀ (m : SancusState) (lk rk : List Nat), m.key_fut = some lk →
      (lk ≠ rk →
        SancusModule.attest_manager_step m lk rk =
          (m, some ("Received key is different from " ++ m.name ++ " key")) ∧
        (SancusModule.attest_manager_step m lk rk).1.attested = m.attested) ∧
      (lk = rk →
        (SancusModule.attest_manager_step m lk rk).1.attested = some true ∧
        (SancusModule.attest_manager_step m lk rk).2 = none) := by
  intro m lk rk _
  constructor
  · intro hne
    constructor
    · simp [SancusModule.attest_manager_step, hne]
    · simp [SancusModule.attest_manager_step, hne]
  · intro heq
    constructor
    · simp [SancusModule.attest_manager_step, heq]
    · simp [SancusModule.attest_manager_step, heq]

/-- C8 (witness): the mismatch and match cases evaluated on the concrete
example module, whose local key is `[1, 255]`. -/
theorem c8_attestation_mismatch_witness :
    sancusExample.key_fut = some [1, 255] ∧
    ([1, 255] ≠ ([1, 0] : List Nat) ∧
      (SancusModule.attest_manager_step sancusExample [1, 255] [1, 0]).1.attested =
        sancusExample.attested) ∧
    (SancusModule.attest_manager_step sancusExample [1, 255] [1, 255]).1.attested =
      some true :=
  ⟨rfl,
   ⟨by decide,
    ((c8_attestation_mismatch sancusExample [1, 255] [1, 0] rfl).1 (by decide)).2⟩,
   ((c8_attestation_mismatch sancusExample [1, 255] [1, 255] rfl).2 rfl).1⟩

/-- C9: an integer argument to `get_input_id` / `get_output_id` is returned
unchanged, independent of the backend resolver or maps, and a numeric string
argument to `get_entry_id` is returned as its integer value, again without
consulting the resolver or the map — for both backends. -/
theorem c9_numeric_passthrough :
    (∀ (resolve : String → Except String Nat) (n : Nat),
      SancusModule.get_input_id resolve (PyVal.int n) = Except.ok n ∧
      SancusModule.get_output_id resolve (PyVal.int n) = Except.ok n) ∧
    (∀ (resolve : String → Except String Nat) (s : String), strIsNumeric s = true →
      SancusModule.get_entry_id resolve (PyVal.str s) = Except.ok (digitsToNat s)) ∧
    (∀ (inputs outputs : List (String × Nat)) (n : Nat),
      TrustZoneModule.get_input_id inputs (PyVal.int n) = Except.ok n ∧
      TrustZoneModule.get_output_id outputs (PyVal.int n) = Except.ok n) ∧
    (∀ (eps : List (String × Nat)) (s : String), strIsNumeric s = true →
      TrustZoneModule.get_entry_id eps (PyVal.str s) = Except.ok (digitsToNat s)) := by
  refine ⟨fun resolve n => ⟨rfl, rfl⟩, fun resolve s hs => ?_,
          fun inputs outputs n => ⟨rfl, rfl⟩, fun eps s hs => ?_⟩
  · simp [SancusModule.get_entry_id, hs]
  · simp [TrustZoneModule.get_entry_id, hs]

/-- C9 (witness): passthrough evaluated at the integer 7 and the numeric
string "42", against a resolver and maps that would answer differently. -/
theorem c9_numeric_passthrough_witness :
    SancusModule.get_input_id (fun _ => Except.ok 99) (PyVal.int 7) = Except.ok 7 ∧
    (strIsNumeric "42" = true ∧
      SancusModule.get_entry_id (fun _ => Except.ok 99) (PyVal.str "42") =
        Except.ok (digitsToNat "42") ∧
      digitsToNat "42" = 42) ∧
    TrustZoneModule.get_entry_id [("42", 99)] (PyVal.str "42") = Except.ok 42 :=
  ⟨(c9_numeric_passthrough.1 (fun _ => Except.ok 99) 7).1,
   ⟨by decide,
    c9_numeric_passthrough.2.1 (fun _ => Except.ok 99) "42" (by decide),
    by decide⟩,
   by rw [c9_numeric_passthrough.2.2.2 [("42", 99)] "42" (by decide)]; rfl⟩

/-- C10: the passthrough test is type-asymmetric — `get_input_id` and
`get_output_id` pass through only integer-typed arguments, so a numeric
string still goes to the resolver or the static map (where it may yield a
different value or an error); `get_entry_id` applies `isnumeric` to its
argument, so an integer argument raises `AttributeError` instead of being
returned, and only digit strings pass through. -/
theorem c10_type_asymmetric_passthrough :
    (∀ (resolve : String → Except String Nat) (s : String), strIsNumeric s = true →
      SancusModule.get_input_id resolve (PyVal.str s) = resolve s ∧
      SancusModule.get_output_id resolve (PyVal.str s) = resolve s) ∧
    (∀ (resolve : String → Except String Nat) (n : Nat),
      SancusModule.get_entry_id resolve (PyVal.int n) = Except.error "AttributeError") ∧
    (∀ (eps : List (String × Nat)) (n : Nat),
      TrustZoneModule.get_entry_id eps (PyVal.int n) = Except.error "AttributeError") ∧
    (∀ (inputs : List (String × Nat)) (s : String) (v : Nat), strIsNumeric s = true →
      inputs.lookup s = some v →
      TrustZoneModule.get_input_id inputs (PyVal.str s) = Except.ok v) ∧
    (∀ (outputs : List (String × Nat)) (s : String), strIsNumeric s = true →
      outputs.lookup s = none →
      TrustZoneModule.get_output_id outputs (PyVal.str s) =
        Except.error "Output not present in outputs") ∧
    (∀ (resolve : String → Except String Nat) (s : String), strIsNumeric s = false →
      SancusModule.get_entry_id resolve (PyVal.str s) = resolve s) := by
  refine ⟨fun resolve s _ => ⟨rfl, rfl⟩, fun resolve n => rfl, fun eps n => rfl,
          fun inputs s v _ hl => ?_, fun outputs s _ hl => ?_,
          fun resolve s hs => ?_⟩
  · simp [TrustZoneModule.get_input_id, hl]
  · simp [TrustZoneModule.get_output_id, hl]
  · simp [SancusModule.get_entry_id, hs]

/-- C10 (witness): the asymmetry evaluated on the numeric string "5" — passed
through a resolver for io ids, mapped (to a value other than 5) or rejected
by the TrustZone maps — and on the integer 5 handed to `get_entry_id`. -/
theorem c10_type_asymmetric_passthrough_witness :
    (strIsNumeric "5" = true ∧
      SancusModule.get_input_id (fun _ => Except.ok 99) (PyVal.str "5") =
        Except.ok 99) ∧
    SancusModule.get_entry_id (fun _ => Except.ok 99) (PyVal.int 5) =
      Except.error "AttributeError" ∧
    TrustZoneModule.get_entry_id [] (PyVal.int 5) = Except.error "AttributeError" ∧
    TrustZoneModule.get_input_id [("5", 42)] (PyVal.str "5") = Except.ok 42 ∧
    TrustZoneModule.get_output_id [] (PyVal.str "5") =
      Except.error "Output not present in outputs" ∧
    (strIsNumeric "go" = false ∧
      SancusModule.get_entry_id (fun _ => Except.ok 99) (PyVal.str "go") =
        Except.ok 99) :=
  ⟨⟨by decide,
    by rw [(c10_type_asymmetric_passthrough.1 (fun _ => Except.ok 99) "5" (by decide)).1]⟩,
   c10_type_asymmetric_passthrough.2.1 (fun _ => Except.ok 99) 5,
   c10_type_asymmetric_passthrough.2.2.1 [] 5,
   c10_type_asymmetric_passthrough.2.2.2.1 [("5", 42)] "5" 42 (by decide) (by decide),
   c10_type_asymmetric_passthrough.2.2.2.2.1 [] "5" (by decide) rfl,
   ⟨by decide,
    by rw [c10_type_asymmetric_passthrough.2.2.2.2.2 (fun _ => Except.ok 99) "go"
        (by decide)]⟩⟩


